import Mathlib

/-!
Shallow embedding of the grid-to-screen projection and classification
pipeline of the GFS temperature-anomaly dashboard: the point generator
`createNorthAmericaMapPoints` (both prototype versions found in
`src/frontend/src/index.js`) and the canvas heatmap color classifier
`getTemperatureColor` (`src/unnamed/part_000`), together with the spec's
Grid Normalizer operation `normalizeLongitude`, which has no implementation
under `src/`.

JavaScript numbers are idealized as exact rationals extended with the IEEE
special values NaN and the two infinities, which the pipeline can produce
through division by zero (degenerate statistics ranges). Grid cells keep the
distinctions JavaScript observes: `undefined` (absent), JSON `null`, NaN,
and a finite number.
-/

namespace GfsAnomaly

/-- Idealized JavaScript number: an exact rational, or one of the IEEE
special values that the pipeline's arithmetic can produce. -/
inductive JSNum where
  | fin (q : ℚ)
  | posInf
  | negInf
  | nan
  deriving DecidableEq

/-- JavaScript subtraction on idealized numbers. -/
def JSNum.sub : JSNum → JSNum → JSNum
  | .nan, _ => .nan
  | _, .nan => .nan
  | .fin a, .fin b => .fin (a - b)
  | .fin _, .posInf => .negInf
  | .fin _, .negInf => .posInf
  | .posInf, .fin _ => .posInf
  | .negInf, .fin _ => .negInf
  | .posInf, .negInf => .posInf
  | .negInf, .posInf => .negInf
  | .posInf, .posInf => .nan
  | .negInf, .negInf => .nan

/-- JavaScript division on idealized numbers: `0/0` is NaN and `a/0` for
nonzero `a` is a signed infinity (the divisor arises as `max - min`, an
exact subtraction, so only positive zero occurs as a zero divisor). -/
def JSNum.div : JSNum → JSNum → JSNum
  | .nan, _ => .nan
  | _, .nan => .nan
  | .fin a, .fin b =>
      if b = 0 then (if a = 0 then .nan else if 0 < a then .posInf else .negInf)
      else .fin (a / b)
  | .fin _, .posInf => .fin 0
  | .fin _, .negInf => .fin 0
  | .posInf, .fin b => if b < 0 then .negInf else .posInf
  | .negInf, .fin b => if b < 0 then .posInf else .negInf
  | .posInf, .posInf => .nan
  | .posInf, .negInf => .nan
  | .negInf, .posInf => .nan
  | .negInf, .negInf => .nan

/-- JavaScript strict `<` on idealized numbers: any comparison with NaN
is false. -/
def JSNum.lt : JSNum → JSNum → Bool
  | .nan, _ => false
  | _, .nan => false
  | .fin a, .fin b => decide (a < b)
  | .fin _, .posInf => true
  | .fin _, .negInf => false
  | .posInf, .fin _ => false
  | .negInf, .fin _ => true
  | .posInf, .posInf => false
  | .negInf, .negInf => false
  | .negInf, .posInf => true
  | .posInf, .negInf => false

/-- One cell of the `values` grid as JavaScript observes it: absent
(`undefined`, also used when an index is out of range or a whole row is
missing), JSON `null`, NaN, or a finite number. -/
inductive Cell where
  | undef
  | null
  | nan
  | num (q : ℚ)
  deriving DecidableEq

/-- Numeric coercion applied when a cell participates in arithmetic:
JavaScript coerces `null` to `0`, and `undefined` to NaN. -/
def Cell.toNumber : Cell → JSNum
  | .undef => .nan
  | .null => .fin 0
  | .nan => .nan
  | .num q => .fin q

/-- North America bound, hard-coded in every prototype: `minLat = 15`. -/
def naMinLat : ℚ := 15

/-- North America bound, hard-coded in every prototype: `maxLat = 85`. -/
def naMaxLat : ℚ := 85

/-- North America bound, hard-coded in every prototype: `minLon = -170`. -/
def naMinLon : ℚ := -170

/-- North America bound, hard-coded in every prototype: `maxLon = -50`. -/
def naMaxLon : ℚ := -50

/-- The region filter of `createNorthAmericaMapPoints`:
`lat >= minLat && lat <= maxLat && lon >= minLon && lon <= maxLon`. -/
def inNorthAmerica (lat lon : ℚ) : Bool :=
  decide (naMinLat ≤ lat) && decide (lat ≤ naMaxLat) &&
  decide (naMinLon ≤ lon) && decide (lon ≤ naMaxLon)

/-- The anomaly normalization shared by all prototypes:
`(value - min_anomaly) / (max_anomaly - min_anomaly)` in JavaScript
arithmetic. -/
def jsNormalized (v : JSNum) (min_anomaly max_anomaly : ℚ) : JSNum :=
  JSNum.div (JSNum.sub v (JSNum.fin min_anomaly))
    (JSNum.sub (JSNum.fin max_anomaly) (JSNum.fin min_anomaly))

/-- Color assignment of the second `createNorthAmericaMapPoints` prototype
(src/frontend/src/index.js, lines 469-473): default `#abd9e9`, overridden
by the scan `< 0.2`, `< 0.4`, `> 0.8`, `> 0.6`. -/
def pickColor (normalized : JSNum) : String :=
  if JSNum.lt normalized (JSNum.fin (1/5)) then "#313695"
  else if JSNum.lt normalized (JSNum.fin (2/5)) then "#4575b4"
  else if JSNum.lt (JSNum.fin (4/5)) normalized then "#d73027"
  else if JSNum.lt (JSNum.fin (3/5)) normalized then "#fee090"
  else "#abd9e9"

/-- Output unit of the second prototype: the object pushed onto `points`
(fields `x`, `y`, `color`, `value`, `lat`, `lon`). -/
structure DrawablePoint where
  x : ℚ
  y : ℚ
  color : String
  value : Cell
  lat : ℚ
  lon : ℚ
  deriving DecidableEq

/-- Loop body of the second `createNorthAmericaMapPoints` prototype for one
cell: region filter, then validity check `values[i] && values[i][j] !==
undefined` (with row absence folded into `Cell.undef`), then normalization,
color choice and the 900x600 linear regional mapping. -/
def cellPoint (min_anomaly max_anomaly lat lon : ℚ) (c : Cell) :
    Option DrawablePoint :=
  if inNorthAmerica lat lon then
    if c ≠ Cell.undef then
      some { x := (lon - naMinLon) / (naMaxLon - naMinLon) * 900
             y := (naMaxLat - lat) / (naMaxLat - naMinLat) * 600
             color := pickColor (jsNormalized c.toNumber min_anomaly max_anomaly)
             value := c
             lat := lat
             lon := lon }
    else none
  else none

/-- The ascending index sequence visited by a JavaScript loop
`for (i = 0; i < n; i += step)`. -/
def strideList (n step : ℕ) : List ℕ :=
  (List.range n).filter (fun i => i % step == 0)

/-- Latitude lookup `lats[i]`: the loop only reads indices below the length,
so the default is never observed. -/
def getLat (lats : List ℚ) (i : ℕ) : ℚ :=
  (lats.get? i).getD 0

/-- Longitude lookup `lons[j]`: the loop only reads indices below the
length, so the default is never observed. -/
def getLon (lons : List ℚ) (j : ℕ) : ℚ :=
  (lons.get? j).getD 0

/-- Cell lookup `values[i][j]`: a missing row (`values[i]` falsy) and an
out-of-range column both behave as `undefined`, which the validity check
then rejects. -/
def getCell (values : List (List Cell)) (i j : ℕ) : Cell :=
  match values.get? i with
  | none => Cell.undef
  | some row => (row.get? j).getD Cell.undef

/-- The second `createNorthAmericaMapPoints` prototype
(src/frontend/src/index.js, lines 449-492): nested loops with stride 2
over the grid, collecting the points its body pushes. -/
def createNorthAmericaMapPoints (lats lons : List ℚ)
    (values : List (List Cell)) (min_anomaly max_anomaly : ℚ) :
    List DrawablePoint :=
  (strideList lats.length 2).flatMap (fun i =>
    (strideList lons.length 2).filterMap (fun j =>
      cellPoint min_anomaly max_anomaly (getLat lats i) (getLon lons j)
        (getCell values i j)))

/-- Output unit of the first `createNorthAmericaMapPoints` prototype, which
additionally carries a `size`. -/
structure DrawablePointV1 where
  x : ℚ
  y : ℚ
  color : String
  size : ℕ
  value : Cell
  lat : ℚ
  lon : ℚ
  deriving DecidableEq

/-- Color and size assignment of the first `createNorthAmericaMapPoints`
prototype (src/frontend/src/index.js, lines 60-81): an ascending scan over
the thresholds 0.1, 0.3, 0.4, 0.6, 0.7, 0.9 with a final catch-all. -/
def pickColorSizeV1 (normalized : JSNum) : String × ℕ :=
  if JSNum.lt normalized (JSNum.fin (1/10)) then ("#1a237e", 5)
  else if JSNum.lt normalized (JSNum.fin (3/10)) then ("#3949ab", 4)
  else if JSNum.lt normalized (JSNum.fin (2/5)) then ("#5e35b1", 3)
  else if JSNum.lt normalized (JSNum.fin (3/5)) then ("#90caf9", 2)
  else if JSNum.lt normalized (JSNum.fin (7/10)) then ("#fff176", 3)
  else if JSNum.lt normalized (JSNum.fin (9/10)) then ("#ff9800", 4)
  else ("#d32f2f", 5)

/-- Loop body of the first prototype for one cell: same region filter and
validity check, but an 800x500 canvas and the seven-bucket color scale. -/
def cellPointV1 (min_anomaly max_anomaly lat lon : ℚ) (c : Cell) :
    Option DrawablePointV1 :=
  if inNorthAmerica lat lon then
    if c ≠ Cell.undef then
      some { x := (lon - naMinLon) / (naMaxLon - naMinLon) * 800
             y := (naMaxLat - lat) / (naMaxLat - naMinLat) * 500
             color := (pickColorSizeV1 (jsNormalized c.toNumber min_anomaly max_anomaly)).1
             size := (pickColorSizeV1 (jsNormalized c.toNumber min_anomaly max_anomaly)).2
             value := c
             lat := lat
             lon := lon }
    else none
  else none

/-- The first `createNorthAmericaMapPoints` prototype
(src/frontend/src/index.js, lines 35-101): nested loops with stride 8 over
the grid. -/
def createNorthAmericaMapPointsV1 (lats lons : List ℚ)
    (values : List (List Cell)) (min_anomaly max_anomaly : ℚ) :
    List DrawablePointV1 :=
  (strideList lats.length 8).flatMap (fun i =>
    (strideList lons.length 8).filterMap (fun j =>
      cellPointV1 min_anomaly max_anomaly (getLat lats i) (getLon lons j)
        (getCell values i j)))

/-- The five fixed RGB bucket colors of `getTemperatureColor`
(src/unnamed/part_000, lines 66-81), in ascending bucket order:
cold blue, cool light blue, neutral, warm orange, hot red. -/
def bucketColors : List (ℕ × ℕ × ℕ) :=
  [(25, 55, 126), (57, 117, 180), (144, 202, 249), (255, 152, 0), (211, 47, 47)]

/-- Canvas heatmap classifier `getTemperatureColor`
(src/unnamed/part_000, lines 62-84): normalizes the value against the
statistics range and scans the thresholds 0.2, 0.4, 0.6, 0.8 in ascending
order, returning the first matching bucket color or the hot color. -/
def getTemperatureColor (min_anomaly max_anomaly : ℚ) (value : JSNum) :
    ℕ × ℕ × ℕ :=
  let normalized := jsNormalized value min_anomaly max_anomaly
  if JSNum.lt normalized (JSNum.fin (1/5)) then (25, 55, 126)
  else if JSNum.lt normalized (JSNum.fin (2/5)) then (57, 117, 180)
  else if JSNum.lt normalized (JSNum.fin (3/5)) then (144, 202, 249)
  else if JSNum.lt normalized (JSNum.fin (4/5)) then (255, 152, 0)
  else (211, 47, 47)

/-- Bucket index performed by the threshold scan of `getTemperatureColor`
on a finite normalized value: buckets 0 to 4. -/
def tempBucket (n : ℚ) : ℕ :=
  if n < 1/5 then 0
  else if n < 2/5 then 1
  else if n < 3/5 then 2
  else if n < 4/5 then 3
  else 4

/-- The ordered threshold table of the five-bucket classification. -/
def thresholds : List ℚ := [1/5, 2/5, 3/5, 4/5]

/-- Bucket selection as the spec words it: scan the thresholds in ascending
order and take the first `t` with `normalized < t`; when none matches the
bucket is the last one (`List.findIdx` returns the list length then). -/
def firstMatchBucket (n : ℚ) : ℕ :=
  thresholds.findIdx (fun t => decide (n < t))

/-- Modelled from the spec: the Grid Normalizer operation
`normalizeLongitude` has no implementation under `src/`; the spec defines
it as returning `lon - 360` when `lon > 180` and `lon` unchanged
otherwise. -/
def normalizeLongitude (lon : ℚ) : ℚ :=
  if lon > 180 then lon - 360 else lon

/-- Latitudes of the end-to-end scenario grid of the spec. -/
def demoLats : List ℚ := [50, 40]

/-- Longitudes of the end-to-end scenario grid of the spec. -/
def demoLons : List ℚ := [-100, -90]

/-- Values of the end-to-end scenario grid of the spec:
`[[2, -3], [null, 5]]`. -/
def demoValues : List (List Cell) :=
  [[Cell.num 2, Cell.num (-3)], [Cell.null, Cell.num 5]]

/-- The stride-2 loop over a length-2 axis only visits index 0. -/
theorem stride_two_two : strideList 2 2 = [0] := by decide

/-- The stride-2 loop over a length-1 axis only visits index 0. -/
theorem stride_one_two : strideList 1 2 = [0] := by decide

/-- The stride-8 loop over a length-2 axis only visits index 0. -/
theorem stride_two_eight : strideList 2 8 = [0] := by decide

/-- When the statistics range is nondegenerate, the JavaScript
normalization is the exact rational `(v - mi) / (ma - mi)`. -/
theorem jsNormalized_fin (v mi ma : ℚ) (h : ma - mi ≠ 0) :
    jsNormalized (JSNum.fin v) mi ma = JSNum.fin ((v - mi) / (ma - mi)) := by
  simp [jsNormalized, JSNum.sub, JSNum.div, h]

/-- A cell that passes the region filter and the validity check is emitted
with the linear 900x600 mapping and the five-bucket color. -/
theorem cellPoint_eq_some_of (mi ma lat lon : ℚ) (c : Cell)
    (h1 : inNorthAmerica lat lon = true) (h2 : c ≠ Cell.undef) :
    cellPoint mi ma lat lon c =
      some ⟨(lon - naMinLon) / (naMaxLon - naMinLon) * 900,
            (naMaxLat - lat) / (naMaxLat - naMinLat) * 600,
            pickColor (jsNormalized c.toNumber mi ma), c, lat, lon⟩ := by
  simp [cellPoint, h1, h2]

/-- Inversion: an emitted point comes from an in-region, valid cell, and
its fields satisfy the linear mapping formulas. -/
theorem cellPoint_some_inv {mi ma lat lon : ℚ} {c : Cell} {p : DrawablePoint}
    (h : cellPoint mi ma lat lon c = some p) :
    inNorthAmerica lat lon = true ∧ c ≠ Cell.undef ∧
      p.x = (p.lon - naMinLon) / (naMaxLon - naMinLon) * 900 ∧
      p.y = (naMaxLat - p.lat) / (naMaxLat - naMinLat) * 600 ∧
      p.lat = lat ∧ p.lon = lon := by
  unfold cellPoint at h
  split_ifs at h with h1 h2
  cases h
  exact ⟨h1, h2, rfl, rfl, rfl, rfl⟩

/-- Every point produced by the generator comes from the per-cell body
applied at some pair of visited indices. -/
theorem mem_createNA {lats lons : List ℚ} {values : List (List Cell)}
    {mi ma : ℚ} {p : DrawablePoint}
    (hp : p ∈ createNorthAmericaMapPoints lats lons values mi ma) :
    ∃ i j, cellPoint mi ma (getLat lats i) (getLon lons j)
      (getCell values i j) = some p := by
  unfold createNorthAmericaMapPoints at hp
  rw [List.mem_flatMap] at hp
  obtain ⟨i, _, hpi⟩ := hp
  rw [List.mem_filterMap] at hpi
  obtain ⟨j, _, hcp⟩ := hpi
  exact ⟨i, j, hcp⟩

/-- Evaluation of the per-cell body on the only visited cell of the spec's
end-to-end scenario grid. -/
theorem cellPoint_demo : cellPoint (-3) 5 50 (-100) (Cell.num 2) =
    some ⟨525, 300, "#fee090", Cell.num 2, 50, -100⟩ := by
  norm_num [cellPoint, inNorthAmerica, naMinLat, naMaxLat, naMinLon, naMaxLon,
    jsNormalized, JSNum.sub, JSNum.div, JSNum.lt, Cell.toNumber, pickColor]
  intro h
  exact Cell.noConfusion h

/-- The second prototype emits exactly one point on the spec's end-to-end
scenario grid: the stride-2 loops only visit cell `[0][0]`. -/
theorem createNA_demo :
    createNorthAmericaMapPoints demoLats demoLons demoValues (-3) 5 =
      [⟨525, 300, "#fee090", Cell.num 2, 50, -100⟩] := by
  rw [createNorthAmericaMapPoints]
  rw [show demoLats.length = 2 from rfl, show demoLons.length = 2 from rfl,
    stride_two_two]
  simp only [List.flatMap_cons, List.flatMap_nil, List.filterMap_cons,
    List.filterMap_nil, List.append_nil]
  rw [show getLat demoLats 0 = 50 from rfl, show getLon demoLons 0 = -100 from rfl,
    show getCell demoValues 0 0 = Cell.num 2 from rfl, cellPoint_demo]

/-- Evaluation of the first prototype's per-cell body on the only visited
cell of the spec's end-to-end scenario grid. -/
theorem cellPointV1_demo : cellPointV1 (-3) 5 50 (-100) (Cell.num 2) =
    some ⟨1400/3, 250, "#fff176", 3, Cell.num 2, 50, -100⟩ := by
  norm_num [cellPointV1, inNorthAmerica, naMinLat, naMaxLat, naMinLon, naMaxLon,
    jsNormalized, JSNum.sub, JSNum.div, JSNum.lt, Cell.toNumber, pickColorSizeV1]
  intro h
  exact Cell.noConfusion h

/-- The first prototype also emits exactly one point on the spec's
end-to-end scenario grid: the stride-8 loops only visit cell `[0][0]`. -/
theorem createNAV1_demo :
    createNorthAmericaMapPointsV1 demoLats demoLons demoValues (-3) 5 =
      [⟨1400/3, 250, "#fff176", 3, Cell.num 2, 50, -100⟩] := by
  rw [createNorthAmericaMapPointsV1]
  rw [show demoLats.length = 2 from rfl, show demoLons.length = 2 from rfl,
    stride_two_eight]
  simp only [List.flatMap_cons, List.flatMap_nil, List.filterMap_cons,
    List.filterMap_nil, List.append_nil]
  rw [show getLat demoLats 0 = 50 from rfl, show getLon demoLons 0 = -100 from rfl,
    show getCell demoValues 0 0 = Cell.num 2 from rfl, cellPointV1_demo]

/-- A one-cell all-null grid inside the region still yields one point:
the validity check `values[i][j] !== undefined` accepts `null`, which is
then coerced to 0 during normalization (here `(0 + 3)/8 = 3/8`, the cool
bucket `#4575b4`). -/
theorem createNA_null_demo :
    createNorthAmericaMapPoints [50] [-100] [[Cell.null]] (-3) 5 =
      [⟨525, 300, "#4575b4", Cell.null, 50, -100⟩] := by
  rw [createNorthAmericaMapPoints]
  rw [show ([(50 : ℚ)] : List ℚ).length = 1 from rfl,
    show ([(-100 : ℚ)] : List ℚ).length = 1 from rfl, stride_one_two]
  simp only [List.flatMap_cons, List.flatMap_nil, List.filterMap_cons,
    List.filterMap_nil, List.append_nil]
  rw [show getLat [(50 : ℚ)] 0 = 50 from rfl,
    show getLon [(-100 : ℚ)] 0 = -100 from rfl,
    show getCell [[Cell.null]] 0 0 = Cell.null from rfl]
  norm_num [cellPoint, inNorthAmerica, naMinLat, naMaxLat, naMinLon, naMaxLon,
    jsNormalized, JSNum.sub, JSNum.div, JSNum.lt, Cell.toNumber, pickColor]
  rfl

/-- With inverted statistics (`min_anomaly = 5 > max_anomaly = -3`) the
generator silently emits a point: `normalized = (0-5)/(-3-5) = 5/8`. -/
theorem createNA_inverted :
    createNorthAmericaMapPoints [50] [-100] [[Cell.num 0]] 5 (-3) =
      [⟨525, 300, "#fee090", Cell.num 0, 50, -100⟩] := by
  rw [createNorthAmericaMapPoints]
  rw [show ([(50 : ℚ)] : List ℚ).length = 1 from rfl,
    show ([(-100 : ℚ)] : List ℚ).length = 1 from rfl, stride_one_two]
  simp only [List.flatMap_cons, List.flatMap_nil, List.filterMap_cons,
    List.filterMap_nil, List.append_nil]
  rw [show getLat [(50 : ℚ)] 0 = 50 from rfl,
    show getLon [(-100 : ℚ)] 0 = -100 from rfl,
    show getCell [[Cell.num 0]] 0 0 = Cell.num 0 from rfl]
  norm_num [cellPoint, inNorthAmerica, naMinLat, naMaxLat, naMinLon, naMaxLon,
    jsNormalized, JSNum.sub, JSNum.div, JSNum.lt, Cell.toNumber, pickColor]
  rfl

/-- C1: the spec's end-to-end scenario fails on the code. On the grid
`lats=[50,40]`, `lons=[-100,-90]`, `values=[[2,-3],[null,5]]` with
statistics `min=-3, max=5`, both versions of `createNorthAmericaMapPoints`
emit exactly 1 DrawablePoint, not 3: their loops advance by 2
(respectively 8), so only cell `[0][0]` is ever visited. -/
theorem c1_end_to_end_counterexample :
    (createNorthAmericaMapPoints demoLats demoLons demoValues (-3) 5).length ≠ 3 ∧
    (createNorthAmericaMapPoints demoLats demoLons demoValues (-3) 5).length = 1 ∧
    (createNorthAmericaMapPointsV1 demoLats demoLons demoValues (-3) 5).length = 1 := by
  rw [createNA_demo, createNAV1_demo]
  exact ⟨by decide, rfl, rfl⟩

/-- C1 amended: on the scenario grid the generator emits exactly one
DrawablePoint, for cell `[0][0]` (`value = 2`, `normalized = 5/8`), because
the loops sample every 2nd (first prototype: every 8th) row and column; the
cells holding `-3`, `null` and `5` are never visited. -/
theorem c1_end_to_end_amended :
    createNorthAmericaMapPoints demoLats demoLons demoValues (-3) 5 =
      [⟨525, 300, "#fee090", Cell.num 2, 50, -100⟩] ∧
    createNorthAmericaMapPointsV1 demoLats demoLons demoValues (-3) 5 =
      [⟨1400/3, 250, "#fff176", 3, Cell.num 2, 50, -100⟩] :=
  ⟨createNA_demo, createNAV1_demo⟩

/-- C2: an all-null grid does not yield zero DrawablePoints. A single
in-region `null` cell passes the validity check (`null !== undefined`) and
is emitted, so the claim fails at this concrete input. -/
theorem c2_missing_data_counterexample :
    createNorthAmericaMapPoints [50] [-100] [[Cell.null]] (-3) 5 ≠ [] ∧
    (createNorthAmericaMapPoints [50] [-100] [[Cell.null]] (-3) 5).length = 1 := by
  rw [createNA_null_demo]
  exact ⟨by simp, rfl⟩

/-- C2 amended: a grid in which every cell is undefined (rows missing or
cells absent) yields zero DrawablePoints and no error (the generator is a
total function); `null`/NaN cells are not treated as no-data. -/
theorem c2_missing_data_amended (lats lons : List ℚ)
    (values : List (List Cell)) (mi ma : ℚ)
    (h : ∀ row ∈ values, ∀ c ∈ row, c = Cell.undef) :
    createNorthAmericaMapPoints lats lons values mi ma = [] := by
  apply List.eq_nil_iff_forall_not_mem.mpr
  intro p hp
  obtain ⟨i, j, hcp⟩ := mem_createNA hp
  have hcell : getCell values i j = Cell.undef := by
    unfold getCell
    rcases hrow : values.get? i with _ | row
    · rfl
    · show (row.get? j).getD Cell.undef = Cell.undef
      rcases hc : row.get? j with _ | c
      · simp [hc]
      · have hcu : c = Cell.undef := h row (List.get?_mem hrow) c (List.get?_mem hc)
        simp [hc, hcu]
  rw [hcell] at hcp
  simp [cellPoint] at hcp

/-- C2 witness: the amended statement at the concrete one-cell
undefined grid. -/
theorem c2_missing_data_amended_witness :
    createNorthAmericaMapPoints [50] [-100] [[Cell.undef]] (-3) 5 = [] :=
  c2_missing_data_amended [50] [-100] [[Cell.undef]] (-3) 5 (by decide)

/-- C3: with a degenerate range (`min = max = 3`) the classifier does not
assign one fixed neutral bucket to every valid cell: the cell with value 3
normalizes to NaN, which falls through every threshold comparison to the
hot bucket `(211,47,47)`, while the cell with value 2 normalizes to
negative infinity and gets the cold bucket `(25,55,126)`; neither is the
neutral bucket `(144,202,249)`. -/
theorem c3_degenerate_counterexample :
    getTemperatureColor 3 3 (JSNum.fin 3) = (211, 47, 47) ∧
    getTemperatureColor 3 3 (JSNum.fin 2) = (25, 55, 126) ∧
    ((211, 47, 47) : ℕ × ℕ × ℕ) ≠ (144, 202, 249) ∧
    ((211, 47, 47) : ℕ × ℕ × ℕ) ≠ (25, 55, 126) := by
  norm_num [getTemperatureColor, jsNormalized, JSNum.sub, JSNum.div, JSNum.lt]

/-- C3 amended: with a degenerate range the classifier does not raise and
never propagates NaN/Infinity into the output color — the output is always
one of the five fixed bucket colors — but the bucket is not a fixed neutral
one: any value at or above the degenerate statistic gets the hot bucket
(NaN and positive infinity both fall through the ascending scan) and any
value below it gets the cold bucket (negative infinity). -/
theorem c3_degenerate_amended (m v : ℚ) :
    getTemperatureColor m m (JSNum.fin v) =
      (if v < m then (25, 55, 126) else (211, 47, 47)) ∧
    getTemperatureColor m m (JSNum.fin v) ∈ bucketColors := by
  have hsub : (m - m : ℚ) = 0 := sub_self m
  have hmain : getTemperatureColor m m (JSNum.fin v) =
      (if v < m then (25, 55, 126) else (211, 47, 47)) := by
    rcases lt_trichotomy v m with h | h | h
    · have h1 : v - m < 0 := sub_neg.mpr h
      simp [getTemperatureColor, jsNormalized, JSNum.sub, JSNum.div, JSNum.lt,
        hsub, h1.ne, not_lt.mpr h1.le, h]
    · subst h
      simp [getTemperatureColor, jsNormalized, JSNum.sub, JSNum.div, JSNum.lt,
        hsub, sub_self]
    · have h1 : 0 < v - m := sub_pos.mpr h
      simp [getTemperatureColor, jsNormalized, JSNum.sub, JSNum.div, JSNum.lt,
        hsub, h1.ne.symm, h1, not_lt.mpr h.le]
  refine ⟨hmain, ?_⟩
  rw [hmain]
  split_ifs <;> simp [bucketColors]

/-- C4: the five-bucket threshold scan of `getTemperatureColor` is total
(it agrees everywhere with the spec's first-matching-threshold rule, which
covers all inputs), monotone, maps `0.19` to bucket 0, `0.2` to bucket 1
and `0.81` to bucket 4, and determines the color of every value whose
normalization is finite. -/
theorem c4_bucket_scan :
    (∀ n : ℚ, tempBucket n = firstMatchBucket n) ∧
    (∀ n m : ℚ, n ≤ m → tempBucket n ≤ tempBucket m) ∧
    tempBucket (19/100) = 0 ∧ tempBucket (1/5) = 1 ∧ tempBucket (81/100) = 4 ∧
    (∀ mi ma v : ℚ, mi < ma →
      getTemperatureColor mi ma (JSNum.fin v) =
        bucketColors.getD (tempBucket ((v - mi) / (ma - mi))) (0, 0, 0)) := by
  refine ⟨?_, ?_, by norm_num [tempBucket], by norm_num [tempBucket],
    by norm_num [tempBucket], ?_⟩
  · intro n
    by_cases h1 : n < 1/5 <;> by_cases h2 : n < 2/5 <;>
      by_cases h3 : n < 3/5 <;> by_cases h4 : n < 4/5 <;>
      simp [tempBucket, firstMatchBucket, thresholds, List.findIdx_cons,
        h1, h2, h3, h4]
  · intro n m h
    unfold tempBucket
    split_ifs <;> first | (exfalso; linarith) | norm_num
  · intro mi ma v h
    have hne : ma - mi ≠ 0 := sub_ne_zero.mpr (ne_of_gt h)
    unfold getTemperatureColor
    rw [jsNormalized_fin v mi ma hne]
    simp only [JSNum.lt, decide_eq_true_eq]
    unfold tempBucket
    split_ifs <;> rfl

/-- C4 witness: the monotonicity part at `0 ≤ 1` and the color
correspondence at `min = -3, max = 5, value = 5`. -/
theorem c4_bucket_scan_witness :
    tempBucket 0 ≤ tempBucket 1 ∧
    getTemperatureColor (-3) 5 (JSNum.fin 5) =
      bucketColors.getD (tempBucket ((5 - (-3)) / (5 - (-3)))) (0, 0, 0) :=
  ⟨c4_bucket_scan.2.1 0 1 (by norm_num),
   c4_bucket_scan.2.2.2.2.2 (-3) 5 5 (by norm_num)⟩

/-- C5: the region filter drops every cell strictly outside the North
America box and keeps every valid cell lying exactly on a boundary (the
comparisons are all inclusive); moreover every point the generator emits
carries in-region coordinates. -/
theorem c5_region_filter :
    (∀ (mi ma lat lon : ℚ) (c : Cell),
        (lat < naMinLat ∨ naMaxLat < lat ∨ lon < naMinLon ∨ naMaxLon < lon) →
        cellPoint mi ma lat lon c = none) ∧
    (∀ (mi ma lat lon : ℚ) (c : Cell),
        ((lat = naMinLat ∨ lat = naMaxLat) ∧ naMinLon ≤ lon ∧ lon ≤ naMaxLon ∨
         (lon = naMinLon ∨ lon = naMaxLon) ∧ naMinLat ≤ lat ∧ lat ≤ naMaxLat) →
        c ≠ Cell.undef → (cellPoint mi ma lat lon c).isSome = true) ∧
    (∀ (mi ma : ℚ) (lats lons : List ℚ) (values : List (List Cell))
        (p : DrawablePoint),
        p ∈ createNorthAmericaMapPoints lats lons values mi ma →
        inNorthAmerica p.lat p.lon = true) := by
  refine ⟨?_, ?_, ?_⟩
  · intro mi ma lat lon c h
    unfold cellPoint
    split_ifs with h1 h2 <;> try rfl
    exfalso
    simp only [inNorthAmerica, Bool.and_eq_true, decide_eq_true_eq] at h1
    obtain ⟨⟨⟨ha, hb⟩, hc⟩, hd⟩ := h1
    rcases h with h | h | h | h <;> linarith
  · intro mi ma lat lon c h hc
    have h1 : inNorthAmerica lat lon = true := by
      simp only [inNorthAmerica, Bool.and_eq_true, decide_eq_true_eq]
      rcases h with ⟨hlat, hlon1, hlon2⟩ | ⟨hlon, hlat1, hlat2⟩
      · rcases hlat with rfl | rfl <;>
          refine ⟨⟨⟨?_, ?_⟩, ?_⟩, ?_⟩ <;>
          first | assumption | norm_num [naMinLat, naMaxLat]
      · rcases hlon with rfl | rfl <;>
          refine ⟨⟨⟨?_, ?_⟩, ?_⟩, ?_⟩ <;>
          first | assumption | norm_num [naMinLon, naMaxLon]
    simp [cellPoint, h1, hc]
  · intro mi ma lats lons values p hp
    obtain ⟨i, j, hcp⟩ := mem_createNA hp
    obtain ⟨h1, -, -, -, hlat, hlon⟩ := cellPoint_some_inv hcp
    rw [hlat, hlon]
    exact h1

/-- C5 witness: a cell north of the box is dropped and a valid cell on the
southern boundary latitude is emitted. -/
theorem c5_region_filter_witness :
    cellPoint (-3) 5 100 (-100) (Cell.num 1) = none ∧
    (cellPoint (-3) 5 15 (-100) (Cell.num 1)).isSome = true := by
  constructor
  · exact c5_region_filter.1 (-3) 5 100 (-100) (Cell.num 1)
      (Or.inr (Or.inl (by norm_num [naMaxLat])))
  · exact c5_region_filter.2.1 (-3) 5 15 (-100) (Cell.num 1)
      (Or.inl ⟨Or.inl (by norm_num [naMinLat]),
        by norm_num [naMinLon], by norm_num [naMaxLon]⟩)
      (by simp)

/-- C6: every emitted point has screen coordinates given by the linear
regional mapping `x = (lon - minLon) / (maxLon - minLon) * width` and
`y = (maxLat - lat) / (maxLat - minLat) * height` with the 900x600 canvas
of the second prototype. -/
theorem c6_screen_mapping (mi ma : ℚ) (lats lons : List ℚ)
    (values : List (List Cell)) (p : DrawablePoint)
    (hp : p ∈ createNorthAmericaMapPoints lats lons values mi ma) :
    p.x = (p.lon - naMinLon) / (naMaxLon - naMinLon) * 900 ∧
    p.y = (naMaxLat - p.lat) / (naMaxLat - naMinLat) * 600 := by
  obtain ⟨i, j, hcp⟩ := mem_createNA hp
  obtain ⟨-, -, hx, hy, -, -⟩ := cellPoint_some_inv hcp
  exact ⟨hx, hy⟩

/-- C6 witness: the mapping formulas at the one point emitted on the
end-to-end scenario grid. -/
theorem c6_screen_mapping_witness :
    (525 : ℚ) = ((-100 : ℚ) - naMinLon) / (naMaxLon - naMinLon) * 900 ∧
    (300 : ℚ) = (naMaxLat - 50) / (naMaxLat - naMinLat) * 600 :=
  c6_screen_mapping (-3) 5 demoLats demoLons demoValues
    ⟨525, 300, "#fee090", Cell.num 2, 50, -100⟩
    (by rw [createNA_demo]; exact List.mem_singleton.mpr rfl)

/-- C7: the normalization maps value 0 to 1/2 when the statistics are
`min = -5, max = 5`, and for every nondegenerate range it maps the minimum
to 0 and the maximum to 1. -/
theorem c7_normalization :
    jsNormalized (JSNum.fin 0) (-5) 5 = JSNum.fin (1/2) ∧
    ∀ mi ma : ℚ, mi < ma →
      jsNormalized (JSNum.fin mi) mi ma = JSNum.fin 0 ∧
      jsNormalized (JSNum.fin ma) mi ma = JSNum.fin 1 := by
  constructor
  · rw [jsNormalized_fin 0 (-5) 5 (by norm_num)]
    norm_num
  · intro mi ma h
    have hne : ma - mi ≠ 0 := sub_ne_zero.mpr (ne_of_gt h)
    rw [jsNormalized_fin mi mi ma hne, jsNormalized_fin ma mi ma hne]
    constructor
    · simp [sub_self]
    · rw [div_self hne]

/-- C7 witness: the min/max cases at the concrete range `[-5, 5]`. -/
theorem c7_normalization_witness :
    jsNormalized (JSNum.fin (-5)) (-5) 5 = JSNum.fin 0 ∧
    jsNormalized (JSNum.fin 5) (-5) 5 = JSNum.fin 1 :=
  c7_normalization.2 (-5) 5 (by norm_num)

/-- C8: the generator performs no configuration validation. With inverted
statistics (`min_anomaly = 5 > max_anomaly = -3`) it signals nothing and
silently produces a point for a one-cell in-region grid, contradicting the
claim that such a run fails. -/
theorem c8_config_check_counterexample :
    (5 : ℚ) > -3 ∧
    createNorthAmericaMapPoints [50] [-100] [[Cell.num 0]] 5 (-3) =
      [⟨525, 300, "#fee090", Cell.num 0, 50, -100⟩] :=
  ⟨by norm_num, createNA_inverted⟩

/-- C8 amended: the code has no configuration-error path: for every
inverted statistics pair (`max < min`) the generator still emits its
point for a one-valid-cell in-region grid, and inverted region bounds are
impossible because the bounds are hard-coded constants with
`minLat < maxLat` and `minLon < maxLon`. -/
theorem c8_no_config_check (mi ma : ℚ) (_h : ma < mi) :
    (createNorthAmericaMapPoints [50] [-100] [[Cell.num 0]] mi ma).length = 1 ∧
    naMinLat < naMaxLat ∧ naMinLon < naMaxLon := by
  refine ⟨?_, by norm_num [naMinLat, naMaxLat], by norm_num [naMinLon, naMaxLon]⟩
  rw [createNorthAmericaMapPoints]
  rw [show ([(50 : ℚ)] : List ℚ).length = 1 from rfl,
    show ([(-100 : ℚ)] : List ℚ).length = 1 from rfl, stride_one_two]
  simp only [List.flatMap_cons, List.flatMap_nil, List.filterMap_cons,
    List.filterMap_nil, List.append_nil]
  rw [show getLat [(50 : ℚ)] 0 = 50 from rfl,
    show getLon [(-100 : ℚ)] 0 = -100 from rfl,
    show getCell [[Cell.num 0]] 0 0 = Cell.num 0 from rfl]
  rw [cellPoint_eq_some_of mi ma 50 (-100) (Cell.num 0) (by decide) (by simp)]
  rfl

/-- C8 witness: the amended statement at the inverted pair `(5, -3)`. -/
theorem c8_no_config_check_witness :
    (createNorthAmericaMapPoints [50] [-100] [[Cell.num 0]] 5 (-3)).length = 1 ∧
    naMinLat < naMaxLat ∧ naMinLon < naMaxLon :=
  c8_no_config_check 5 (-3) (by norm_num)

/-- C9: the spec's `normalizeLongitude` is not idempotent on every input:
at `x = 900` one application gives 540, but a second application maps 540
to 180. -/
theorem c9_idempotence_counterexample :
    normalizeLongitude 900 = 540 ∧
    normalizeLongitude 540 = 180 ∧
    normalizeLongitude (normalizeLongitude 900) ≠ normalizeLongitude 900 := by
  norm_num [normalizeLongitude]

/-- C9 amended: `normalizeLongitude` is idempotent on every input `x ≤ 540`
(in particular on both longitude conventions, whose values lie in
`[-180, 360]`), because one application then lands at or below 180. -/
theorem c9_idempotence_below (x : ℚ) (h : x ≤ 540) :
    normalizeLongitude (normalizeLongitude x) = normalizeLongitude x := by
  unfold normalizeLongitude
  split_ifs <;> linarith

/-- C9 witness: idempotence at the 0-360 convention value 200. -/
theorem c9_idempotence_below_witness :
    normalizeLongitude (normalizeLongitude 200) = normalizeLongitude 200 :=
  c9_idempotence_below 200 (by norm_num)

/-- C10: an in-region cell holding `null` is emitted, not skipped: the
validity check accepts `null`, the point's value field is `null`, and its
color comes from the normalization computed with `null` coerced to 0,
that is `(0 - min_anomaly) / (max_anomaly - min_anomaly)`. -/
theorem c10_null_cell_emitted (mi ma lat lon : ℚ)
    (h : inNorthAmerica lat lon = true) :
    cellPoint mi ma lat lon Cell.null =
      some ⟨(lon - naMinLon) / (naMaxLon - naMinLon) * 900,
            (naMaxLat - lat) / (naMaxLat - naMinLat) * 600,
            pickColor (JSNum.div (JSNum.sub (JSNum.fin 0) (JSNum.fin mi))
              (JSNum.sub (JSNum.fin ma) (JSNum.fin mi))),
            Cell.null, lat, lon⟩ := by
  rw [cellPoint_eq_some_of mi ma lat lon Cell.null h (by simp)]
  rfl

/-- C10 witness: the null cell at `(50, -100)` with statistics
`min = -3, max = 5`. -/
theorem c10_null_cell_emitted_witness :
    cellPoint (-3) 5 50 (-100) Cell.null =
      some ⟨((-100 : ℚ) - naMinLon) / (naMaxLon - naMinLon) * 900,
            (naMaxLat - 50) / (naMaxLat - naMinLat) * 600,
            pickColor (JSNum.div (JSNum.sub (JSNum.fin 0) (JSNum.fin (-3)))
              (JSNum.sub (JSNum.fin 5) (JSNum.fin (-3)))),
            Cell.null, 50, -100⟩ :=
  c10_null_cell_emitted (-3) 5 50 (-100) (by decide)

end GfsAnomaly
